import Mathlib

/-!
Shallow embedding of the failure-classification and diagnostics subsystem of
espflash (src/espflash/src/error.rs), together with theorems checking the
specified properties against it.  Source text is modelled as a list of
characters; byte offsets are computed with the UTF-8 size of each character,
matching the byte-oriented offsets of the Rust code.
-/

/-- UTF-8 encoding of a single character as a list of bytes (each a Nat < 256),
matching the encoding Rust uses for str, so that byte offsets and byte slices
agree with the Rust code. -/
def utf8Encode (c : Char) : List Nat :=
  let n := c.toNat
  if n < 0x80 then [n]
  else if n < 0x800 then [0xC0 + n / 64, 0x80 + n % 64]
  else if n < 0x10000 then [0xE0 + n / 4096, 0x80 + (n / 64) % 64, 0x80 + n % 64]
  else [0xF0 + n / 262144, 0x80 + (n / 4096) % 64, 0x80 + (n / 64) % 64, 0x80 + n % 64]

/-- The UTF-8 byte sequence of a source text. -/
def strBytes (s : List Char) : List Nat :=
  (s.map utf8Encode).flatten

/-- Byte length of a source text, as Rust str len returns it. -/
def strByteLen (s : List Char) : Nat :=
  (s.map Char.utf8Size).sum

/-- Slice a source text as a byte range: the bytes from offset off of length len,
the reading a caller gives to a returned SourceSpan. -/
def sliceBytes (s : List Char) (off len : Nat) : List Nat :=
  ((strBytes s).drop off).take len

/-- Split a character list at every newline character; the newline separators are
dropped.  Always returns at least one (possibly empty) piece. -/
def splitOnNl : List Char → List (List Char)
  | [] => [[]]
  | c :: rest =>
    if c = '\n' then [] :: splitOnNl rest
    else
      match splitOnNl rest with
      | [] => [[c]]
      | l :: ls => (c :: l) :: ls

/-- Drop one trailing carriage return from a line, as Rust str lines does for
lines that were newline-terminated. -/
def stripCr (l : List Char) : List Char :=
  if l.getLast? = some '\r' then l.dropLast else l

/-- Rust str lines: split on newline characters, with no empty final piece when
the text ends in a newline; every newline-terminated piece additionally has one
trailing carriage return stripped (a final piece without newline terminator is
kept as is). -/
def rustLines (s : List Char) : List (List Char) :=
  let p := splitOnNl s
  p.dropLast.map stripCr ++
    match p.getLast? with
    | some [] => []
    | some l => [l]
    | none => []

/-- A miette SourceSpan: a byte offset into the source text together with a byte
length. -/
structure SourceSpan where
  offset : Nat
  length : Nat
deriving DecidableEq

/-- Loop of miette SourceOffset.from_location (the miette crate is an external
collaborator of this repository; this mirrors its implementation, which walks
the characters accumulating a byte offset until the 1-based requested line and
column are reached): state is the current 0-based line, 0-based column and byte
offset. -/
def fromLocationGo (locLine locCol : Nat) : List Char → Nat → Nat → Nat → Nat
  | [], _, _, offset => offset
  | c :: rest, line, col, offset =>
    if locLine ≤ line + 1 ∧ locCol ≤ col + 1 then offset
    else if c = '\n' then fromLocationGo locLine locCol rest (line + 1) 0 (offset + c.utf8Size)
    else fromLocationGo locLine locCol rest line (col + 1) (offset + c.utf8Size)

/-- miette SourceOffset.from_location: byte offset of the given 1-based line and
column in the source text; out-of-range positions give the offset of the end of
the text. -/
def fromLocation (source : List Char) (locLine locCol : Nat) : Nat :=
  fromLocationGo locLine locCol source 0 0 0

/-- line_to_span from error.rs: the span highlighting the line with the given
1-based number.  The length is the byte length of that line as Rust lines
yields it; the offset is computed by miette from_location called with column 2.
Rust computes lines().nth(line - 1).unwrap(): for line 0 the usize subtraction
wraps around, nth finds nothing and unwrap aborts, and likewise when line
exceeds the number of lines; none models that abort. -/
def line_to_span (source : List Char) (line : Nat) : Option SourceSpan :=
  if line = 0 then none
  else
    match (rustLines source).get? (line - 1) with
    | none => none
    | some l => some ⟨fromLocation source line 2, strByteLen l⟩

/-- Byte offset of the start of the line after skipping n newline characters
(so of 1-based line n + 1). -/
def lineStartOffset : List Char → Nat → Nat
  | _, 0 => 0
  | [], _ + 1 => 0
  | c :: rest, n + 1 =>
    if c = '\n' then c.utf8Size + lineStartOffset rest n
    else c.utf8Size + lineStartOffset rest (n + 1)

/-- Modelled from the spec: the span covering exactly the requested 1-based line
of the source text, from the start byte offset of that line, with the byte
length of the line content excluding its terminator.  Used to compare what the
code produces against what the spec asks for. -/
def specLineSpan (source : List Char) (line : Nat) : Option SourceSpan :=
  if line = 0 then none
  else
    match (rustLines source).get? (line - 1) with
    | none => none
    | some l => some ⟨lineStartOffset source (line - 1), strByteLen l⟩

/-- RomErrorKind from error.rs: the closed set of bootloader status kinds. -/
inductive RomErrorKind
  | InvalidMessage
  | FailedToAct
  | InvalidCrc
  | FlashWriteError
  | FlashReadError
  | FlashReadLengthError
  | DeflateError
  | Other
deriving DecidableEq

/-- From u8 for RomErrorKind in error.rs: total decoding of a status byte. -/
def RomErrorKind.ofU8 (raw : Fin 256) : RomErrorKind :=
  match raw.val with
  | 0x05 => RomErrorKind.InvalidMessage
  | 0x06 => RomErrorKind.FailedToAct
  | 0x07 => RomErrorKind.InvalidCrc
  | 0x08 => RomErrorKind.FlashWriteError
  | 0x09 => RomErrorKind.FlashReadError
  | 0x0a => RomErrorKind.FlashReadLengthError
  | 0x0b => RomErrorKind.DeflateError
  | _ => RomErrorKind.Other

/-- Modelled from the spec: the flasher Command identity carried by timeouts and
ROM errors (src/espflash/src/flasher.rs is not included); the spec names
SyncFrame as one such command, other commands are collapsed into a tagged
constructor. -/
inductive Command
  | syncFrame
  | otherCommand (code : Nat)
deriving DecidableEq

/-- TimedOutCommand from error.rs: an optional command identity. -/
structure TimedOutCommand where
  command : Option Command
deriving DecidableEq

/-- Derived Default of TimedOutCommand: no command known. -/
def TimedOutCommand.default : TimedOutCommand := ⟨none⟩

/-- From Command for TimedOutCommand in error.rs. -/
def TimedOutCommand.ofCommand (c : Command) : TimedOutCommand := ⟨some c⟩

/-- Modelled from the spec: the kind of a generic I/O failure; only the
timed-out and not-found kinds are distinguished by the classification rules,
every other kind is collapsed into a tagged constructor. -/
inductive IoErrorKind
  | TimedOut
  | NotFound
  | otherKind (tag : Nat)
deriving DecidableEq

/-- Modelled from the spec: a generic I/O failure, a kind plus an opaque
payload. -/
structure IoError where
  kind : IoErrorKind
  payload : Nat
deriving DecidableEq

/-- Modelled from the spec: an opaque transport failure (serial core Error),
either a converted I/O failure or some other transport cause. -/
inductive SerialError
  | ofIoError (e : IoError)
  | transport (tag : Nat)
deriving DecidableEq

/-- ConnectionError from error.rs: the closed connection-failure taxonomy. -/
inductive ConnectionError
  | Serial (err : SerialError)
  | ConnectionFailed
  | DeviceNotFound
  | Timeout (t : TimedOutCommand)
  | FramingError
  | OverSizedPacket
deriving DecidableEq

/-- Modelled from the spec: the kind of a tabular-parsing (csv) failure; the
deserialize and unequal-lengths kinds carry their reported 1-based line when
present, every other kind is collapsed into a tagged constructor. -/
inductive CsvErrorKind
  | Deserialize (posLine : Option Nat) (err : String)
  | UnequalLengths (posLine : Option Nat) (expected_len : Nat) (len : Nat)
  | otherKind (tag : Nat)
deriving DecidableEq

/-- Modelled from the spec: the partition category (src/espflash/src/partition_table.rs
is not included). -/
inductive PartitionType
  | Data
  | App
deriving DecidableEq

/-- Modelled from the spec: the list of subtypes valid for a partition category,
used only inside a help string. -/
def PartitionType.subtype_hint : PartitionType → String
  | PartitionType.Data => "ota, phy, nvs, nvs_keys"
  | PartitionType.App => "factory, ota_0 through ota_15, test"

/-- Modelled from the spec: a partition subtype value. -/
structure SubType where
  name : String
deriving DecidableEq

/-- CSVError from error.rs: the Csv partition-table diagnostic, owning a copy of
the source text, the highlighted span, a hint, the underlying csv failure and a
help string. -/
structure CSVError where
  source : List Char
  err_span : SourceSpan
  hint : String
  error : CsvErrorKind
  help : String
deriving DecidableEq

/-- OverlappingPartitionsError from error.rs. -/
structure OverlappingPartitionsError where
  source_code : List Char
  partition1_span : SourceSpan
  partition2_span : SourceSpan
deriving DecidableEq

/-- DuplicatePartitionsError from error.rs. -/
structure DuplicatePartitionsError where
  source_code : List Char
  partition1_span : SourceSpan
  partition2_span : SourceSpan
  ty : String
deriving DecidableEq

/-- InvalidSubTypeError from error.rs. -/
structure InvalidSubTypeError where
  source_code : List Char
  span : SourceSpan
  ty : PartitionType
  sub_type : SubType
deriving DecidableEq

/-- UnalignedPartitionError from error.rs. -/
structure UnalignedPartitionError where
  source_code : List Char
  span : SourceSpan
deriving DecidableEq

/-- PartitionTableError from error.rs. -/
inductive PartitionTableError
  | Csv (e : CSVError)
  | Overlapping (e : OverlappingPartitionsError)
  | Duplicate (e : DuplicatePartitionsError)
  | InvalidSubType (e : InvalidSubTypeError)
  | UnalignedPartitionError (e : UnalignedPartitionError)
deriving DecidableEq

/-- ElfError from error.rs: an opaque static message. -/
structure ElfError where
  message : String
deriving DecidableEq

/-- ChipDetectError from error.rs: a rejected 32-bit magic value. -/
structure ChipDetectError where
  magic : Nat
deriving DecidableEq

/-- FlashDetectError from error.rs: a rejected 8-bit flash id. -/
structure FlashDetectError where
  id : Nat
deriving DecidableEq

/-- Modelled from the spec: an image format identifier (src/espflash/src/image_format.rs
is not included). -/
inductive ImageFormatId
  | Bootloader
  | DirectBoot
deriving DecidableEq

/-- Modelled from the spec: the supported chip types. -/
inductive Chip
  | Esp8266
  | Esp32
  | Esp32c3
deriving DecidableEq

/-- UnsupportedImageFormatError from error.rs. -/
structure UnsupportedImageFormatError where
  format : ImageFormatId
  chip : Chip
deriving DecidableEq

/-- RomError from error.rs: the device command paired with the decoded status
kind. -/
structure RomError where
  command : Command
  kind : RomErrorKind
deriving DecidableEq

/-- RomError.new from error.rs: plain constructor without validation. -/
def RomError.new (command : Command) (kind : RomErrorKind) : RomError :=
  ⟨command, kind⟩

/-- Error from error.rs: the top-level error taxonomy. -/
inductive Error
  | Connection (e : ConnectionError)
  | Flashing (e : ConnectionError)
  | InvalidElf (e : ElfError)
  | ElfNotRamLoadable
  | RomError (e : RomError)
  | UnrecognizedChip (e : ChipDetectError)
  | UnsupportedFlash (e : FlashDetectError)
  | FlashConnect
  | MalformedPartitionTable (e : PartitionTableError)
  | UnsupportedImageFormat (e : UnsupportedImageFormatError)
  | UnknownImageFormat (name : String)
  | InvalidDirectBootBinary
deriving DecidableEq

/-- from_error_kind from error.rs: classify a generic I/O failure by its kind;
the failure itself, already converted to a transport failure, is carried by the
Serial fallback. -/
def from_error_kind (kind : IoErrorKind) (err : SerialError) : ConnectionError :=
  match kind with
  | IoErrorKind.TimedOut => ConnectionError.Timeout TimedOutCommand.default
  | IoErrorKind.NotFound => ConnectionError.DeviceNotFound
  | _ => ConnectionError.Serial err

/-- From io Error for ConnectionError in error.rs: classify by the kind of the
failure, carrying the original failure in the Serial fallback. -/
def ConnectionError.ofIoError (err : IoError) : ConnectionError :=
  from_error_kind err.kind (SerialError.ofIoError err)

/-- From io Error for Error in error.rs: wrap the classification as a
Connection failure. -/
def Error.ofIoError (err : IoError) : Error :=
  Error.Connection (ConnectionError.ofIoError err)

/-- Modelled from the spec: a binary-deserialization (binread) failure; the
I/O variant carries its underlying I/O failure, every other variant is
collapsed into a tagged constructor. -/
inductive BinreadError
  | IoFailure (e : IoError)
  | otherVariant (tag : Nat)
deriving DecidableEq

/-- Whether a binread failure carries an underlying I/O failure. -/
def BinreadError.hasIoCause : BinreadError → Bool
  | BinreadError.IoFailure _ => true
  | _ => false

/-- From binread Error for ConnectionError in error.rs: an I/O cause is routed
through the generic I/O classification; any other cause hits an unreachable
abort, modelled as none. -/
def ConnectionError.ofBinread : BinreadError → Option ConnectionError
  | BinreadError.IoFailure e => some (ConnectionError.ofIoError e)
  | _ => none

/-- ResultExt flashing from error.rs: mark an error as having occurred during
the flashing stage. -/
def flashing {α : Type} : Except Error α → Except Error α
  | Except.error (Error.Connection err) => Except.error (Error.Flashing err)
  | res => res

/-- ResultExt for_command from error.rs: mark the command from which a timeout
originates. -/
def for_command {α : Type} : Except Error α → Command → Except Error α
  | Except.error (Error.Connection (ConnectionError.Timeout _)), command =>
      Except.error (Error.Connection (ConnectionError.Timeout (TimedOutCommand.ofCommand command)))
  | Except.error (Error.Flashing (ConnectionError.Timeout _)), command =>
      Except.error (Error.Flashing (ConnectionError.Timeout (TimedOutCommand.ofCommand command)))
  | res, _ => res

/-- Whether a result is an error carrying the Connection variant, the only
shape the flashing operation rewrites. -/
def isConnectionErr {α : Type} : Except Error α → Bool
  | Except.error (Error.Connection _) => true
  | _ => false

/-- Whether a result is an error carrying a Timeout under Connection or
Flashing, the only shapes the for_command operation rewrites. -/
def isTimeoutErr {α : Type} : Except Error α → Bool
  | Except.error (Error.Connection (ConnectionError.Timeout _)) => true
  | Except.error (Error.Flashing (ConnectionError.Timeout _)) => true
  | _ => false

/-- CSVError.new from error.rs: derive the offending 1-based line (0 when the
failure carries no position), derive the hint from the structured cause,
special-case the known subtype message, and highlight the derived line.  The
result is none when line_to_span aborts. -/
def CSVError.new (error : CsvErrorKind) (source : List Char) : Option CSVError :=
  let err_line : Nat :=
    match error with
    | CsvErrorKind.Deserialize (some pos) _ => pos
    | CsvErrorKind.UnequalLengths (some pos) _ _ => pos
    | _ => 0
  let hint0 : String :=
    match error with
    | CsvErrorKind.Deserialize _ err => err
    | CsvErrorKind.UnequalLengths _ expected_len len =>
        "record has " ++ toString len ++ " fields, but the previous record has "
          ++ toString expected_len ++ " fields"
    | _ => ""
  let subTypeMsg := "data did not match any variant of untagged enum SubType"
  let hint := if hint0 = subTypeMsg then "Unknown sub-type" else hint0
  let help :=
    if hint0 = subTypeMsg then
      "the following sub-types are supported:\n    "
        ++ PartitionType.Data.subtype_hint ++ " for data partitions\n    "
        ++ PartitionType.App.subtype_hint ++ " for app partitions\n\n"
    else ""
  match line_to_span source err_line with
  | none => none
  | some sp => some ⟨source, sp, hint, error, help⟩

/-- Whether a csv failure carries no position, so that CSVError.new derives
line 0. -/
def csvHasNoPosition : CsvErrorKind → Bool
  | CsvErrorKind.Deserialize none _ => true
  | CsvErrorKind.UnequalLengths none _ _ => true
  | CsvErrorKind.otherKind _ => true
  | _ => false

/-- Ten-line source text used to evaluate the Csv diagnostic at the scenario of
the spec, lines 1 through 9 of five characters and line 10 of six. -/
def tenLineSource : List Char :=
  "line1\nline2\nline3\nline4\nline5\nline6\nline7\nline8\nline9\nline10\n".toList

set_option maxRecDepth 4000 in
/-- C2: for every status byte, RomErrorKind.ofU8 maps 0x05 through 0x0b to the
seven named kinds and every other byte, 0xff included, to Other; as a total
function it never fails. -/
theorem romErrorKind_ofU8_total_spec (b : Fin 256) :
    (b.val = 0x05 → RomErrorKind.ofU8 b = RomErrorKind.InvalidMessage) ∧
    (b.val = 0x06 → RomErrorKind.ofU8 b = RomErrorKind.FailedToAct) ∧
    (b.val = 0x07 → RomErrorKind.ofU8 b = RomErrorKind.InvalidCrc) ∧
    (b.val = 0x08 → RomErrorKind.ofU8 b = RomErrorKind.FlashWriteError) ∧
    (b.val = 0x09 → RomErrorKind.ofU8 b = RomErrorKind.FlashReadError) ∧
    (b.val = 0x0a → RomErrorKind.ofU8 b = RomErrorKind.FlashReadLengthError) ∧
    (b.val = 0x0b → RomErrorKind.ofU8 b = RomErrorKind.DeflateError) ∧
    (b.val < 0x05 ∨ 0x0b < b.val → RomErrorKind.ofU8 b = RomErrorKind.Other) := by
  revert b; decide

/-- Witness for C2 at the concrete bytes 0x05 and 0xff. -/
theorem romErrorKind_ofU8_total_spec_witness :
    RomErrorKind.ofU8 5 = RomErrorKind.InvalidMessage ∧
    RomErrorKind.ofU8 255 = RomErrorKind.Other :=
  ⟨(romErrorKind_ofU8_total_spec 5).1 (by decide),
   (romErrorKind_ofU8_total_spec 255).2.2.2.2.2.2.2 (Or.inr (by decide))⟩

/-- C3: flashing rewrites an error carrying Connection c into the same error
carrying Flashing c, and leaves every other result, a success or an error of
any other variant, unchanged. -/
theorem flashing_spec (α : Type) (c : ConnectionError) (r : Except Error α) :
    flashing (Except.error (Error.Connection c) : Except Error α) =
      Except.error (Error.Flashing c) ∧
    (isConnectionErr r = false → flashing r = r) := by
  constructor
  · rfl
  · intro h
    cases r with
    | ok v => rfl
    | error e =>
      cases e
      case Connection c => simp [isConnectionErr] at h
      all_goals rfl

/-- Witness for C3 at a concrete connection error and a concrete Flashing
result. -/
theorem flashing_spec_witness :
    flashing (Except.error (Error.Connection ConnectionError.ConnectionFailed) : Except Error Unit) =
      Except.error (Error.Flashing ConnectionError.ConnectionFailed) ∧
    flashing (Except.error (Error.Flashing ConnectionError.ConnectionFailed) : Except Error Unit) =
      Except.error (Error.Flashing ConnectionError.ConnectionFailed) :=
  ⟨(flashing_spec Unit ConnectionError.ConnectionFailed (Except.ok ())).1,
   (flashing_spec Unit ConnectionError.ConnectionFailed
      (Except.error (Error.Flashing ConnectionError.ConnectionFailed))).2 rfl⟩

/-- C4: for_command rewrites a Timeout under Connection or under Flashing so
that the inner TimedOutCommand carries the given command, keeping the outer
variant, and is the identity on every other result. -/
theorem for_command_spec (α : Type) (cmd : Command) (t : TimedOutCommand) (r : Except Error α) :
    for_command (Except.error (Error.Connection (ConnectionError.Timeout t)) : Except Error α) cmd =
      Except.error (Error.Connection (ConnectionError.Timeout ⟨some cmd⟩)) ∧
    for_command (Except.error (Error.Flashing (ConnectionError.Timeout t)) : Except Error α) cmd =
      Except.error (Error.Flashing (ConnectionError.Timeout ⟨some cmd⟩)) ∧
    (isTimeoutErr r = false → for_command r cmd = r) := by
  refine ⟨rfl, rfl, ?_⟩
  intro h
  cases r with
  | ok v => rfl
  | error e =>
    cases e
    case Connection c => cases c <;> first | rfl | simp [isTimeoutErr] at h
    case Flashing c => cases c <;> first | rfl | simp [isTimeoutErr] at h
    all_goals rfl

/-- Witness for C4 at concrete timeouts and a concrete success result. -/
theorem for_command_spec_witness :
    for_command (Except.error (Error.Connection (ConnectionError.Timeout ⟨none⟩)) : Except Error Unit)
        Command.syncFrame =
      Except.error (Error.Connection (ConnectionError.Timeout ⟨some Command.syncFrame⟩)) ∧
    for_command (Except.error (Error.Flashing (ConnectionError.Timeout ⟨none⟩)) : Except Error Unit)
        Command.syncFrame =
      Except.error (Error.Flashing (ConnectionError.Timeout ⟨some Command.syncFrame⟩)) ∧
    for_command (Except.ok () : Except Error Unit) Command.syncFrame = Except.ok () :=
  ⟨(for_command_spec Unit Command.syncFrame ⟨none⟩ (Except.ok ())).1,
   (for_command_spec Unit Command.syncFrame ⟨none⟩ (Except.ok ())).2.1,
   (for_command_spec Unit Command.syncFrame ⟨none⟩ (Except.ok ())).2.2 rfl⟩

/-- C5: stage promotion and command attribution commute on every result. -/
theorem flashing_for_command_commute (α : Type) (cmd : Command) (r : Except Error α) :
    for_command (flashing r) cmd = flashing (for_command r cmd) := by
  cases r with
  | ok v => rfl
  | error e =>
    cases e
    case Connection c => cases c <;> rfl
    case Flashing c => cases c <;> rfl
    all_goals rfl

/-- C6: classification of a generic I/O failure yields Timeout with no command
when the kind is timed-out, DeviceNotFound when the kind is not-found, and
Serial carrying the original failure otherwise; attributing the command
syncFrame to the resulting Connection Timeout records that command. -/
theorem io_error_classification_spec (e : IoError) :
    (e.kind = IoErrorKind.TimedOut →
      ConnectionError.ofIoError e = ConnectionError.Timeout ⟨none⟩ ∧
      for_command (Except.error (Error.ofIoError e) : Except Error Unit) Command.syncFrame =
        Except.error (Error.Connection (ConnectionError.Timeout ⟨some Command.syncFrame⟩))) ∧
    (e.kind = IoErrorKind.NotFound → ConnectionError.ofIoError e = ConnectionError.DeviceNotFound) ∧
    (e.kind ≠ IoErrorKind.TimedOut → e.kind ≠ IoErrorKind.NotFound →
      ConnectionError.ofIoError e = ConnectionError.Serial (SerialError.ofIoError e)) := by
  obtain ⟨k, p⟩ := e
  refine ⟨?_, ?_, ?_⟩
  · intro h
    subst h
    exact ⟨rfl, rfl⟩
  · intro h
    subst h
    rfl
  · intro h1 h2
    cases k with
    | TimedOut => exact absurd rfl h1
    | NotFound => exact absurd rfl h2
    | otherKind t => rfl

/-- Witness for C6 at concrete I/O failures of each kind. -/
theorem io_error_classification_spec_witness :
    ConnectionError.ofIoError ⟨IoErrorKind.TimedOut, 0⟩ = ConnectionError.Timeout ⟨none⟩ ∧
    for_command (Except.error (Error.ofIoError ⟨IoErrorKind.TimedOut, 0⟩) : Except Error Unit)
        Command.syncFrame =
      Except.error (Error.Connection (ConnectionError.Timeout ⟨some Command.syncFrame⟩)) ∧
    ConnectionError.ofIoError ⟨IoErrorKind.NotFound, 0⟩ = ConnectionError.DeviceNotFound ∧
    ConnectionError.ofIoError ⟨IoErrorKind.otherKind 0, 0⟩ =
      ConnectionError.Serial (SerialError.ofIoError ⟨IoErrorKind.otherKind 0, 0⟩) :=
  ⟨((io_error_classification_spec ⟨IoErrorKind.TimedOut, 0⟩).1 rfl).1,
   ((io_error_classification_spec ⟨IoErrorKind.TimedOut, 0⟩).1 rfl).2,
   (io_error_classification_spec ⟨IoErrorKind.NotFound, 0⟩).2.1 rfl,
   (io_error_classification_spec ⟨IoErrorKind.otherKind 0, 0⟩).2.2 (by decide) (by decide)⟩

/-- C7: a binread failure with an I/O cause is classified exactly as the
generic I/O classification of that cause, so the abort branch is unreachable
there; a binread failure with any other cause aborts, modelled as none. -/
theorem binread_classification_spec :
    (∀ e : IoError, ConnectionError.ofBinread (BinreadError.IoFailure e) =
      some (ConnectionError.ofIoError e)) ∧
    (∀ b : BinreadError, BinreadError.hasIoCause b = false →
      ConnectionError.ofBinread b = none) := by
  constructor
  · intro e
    rfl
  · intro b h
    cases b with
    | IoFailure e => simp [BinreadError.hasIoCause] at h
    | otherVariant t => rfl

/-- Witness for C7 at a concrete I/O cause and a concrete non-I/O cause. -/
theorem binread_classification_spec_witness :
    ConnectionError.ofBinread (BinreadError.IoFailure ⟨IoErrorKind.TimedOut, 0⟩) =
      some (ConnectionError.ofIoError ⟨IoErrorKind.TimedOut, 0⟩) ∧
    ConnectionError.ofBinread (BinreadError.otherVariant 0) = none :=
  ⟨binread_classification_spec.1 ⟨IoErrorKind.TimedOut, 0⟩,
   binread_classification_spec.2 (BinreadError.otherVariant 0) rfl⟩

/-- C9: line_to_span aborts for line 0 and for every line number exceeding the
number of lines of the source text, and CSVError.new therefore aborts for every
csv failure that carries no position, since it derives line 0 for those. -/
theorem csv_no_position_aborts :
    (∀ (source : List Char) (line : Nat),
      line = 0 ∨ (rustLines source).length < line → line_to_span source line = none) ∧
    (∀ (k : CsvErrorKind) (source : List Char),
      csvHasNoPosition k = true → CSVError.new k source = none) := by
  constructor
  · intro source line h
    rcases h with h | h
    · subst h
      rfl
    · unfold line_to_span
      rw [if_neg (by omega)]
      rw [List.get?_eq_none.mpr (by omega)]
  · intro k source h
    cases k with
    | Deserialize pos err =>
      cases pos with
      | none => rfl
      | some p => simp [csvHasNoPosition] at h
    | UnequalLengths pos el l =>
      cases pos with
      | none => rfl
      | some p => simp [csvHasNoPosition] at h
    | otherKind t => rfl

/-- Witness for C9 at a concrete two-character one-line text and a concrete
positionless csv failure. -/
theorem csv_no_position_aborts_witness :
    line_to_span "ab".toList 0 = none ∧
    line_to_span "ab".toList 2 = none ∧
    CSVError.new (CsvErrorKind.otherKind 0) "ab".toList = none :=
  ⟨csv_no_position_aborts.1 "ab".toList 0 (Or.inl rfl),
   csv_no_position_aborts.1 "ab".toList 2 (Or.inr (by decide)),
   csv_no_position_aborts.2 (CsvErrorKind.otherKind 0) "ab".toList rfl⟩

/-- C10: command attribution is not write-once: applied to a timeout that
already carries a command, under Connection or under Flashing, it replaces that
command with the new one. -/
theorem for_command_overwrite (α : Type) (cmd1 cmd2 : Command) :
    for_command
        (Except.error (Error.Connection (ConnectionError.Timeout ⟨some cmd1⟩)) : Except Error α)
        cmd2 =
      Except.error (Error.Connection (ConnectionError.Timeout ⟨some cmd2⟩)) ∧
    for_command
        (Except.error (Error.Flashing (ConnectionError.Timeout ⟨some cmd1⟩)) : Except Error α)
        cmd2 =
      Except.error (Error.Flashing (ConnectionError.Timeout ⟨some cmd2⟩)) :=
  ⟨rfl, rfl⟩

/-- C1: evaluation at a failing input: for the two-line text of ab then cd the
span returned for line 1 has offset 1 and length 2, because line_to_span asks
miette for column 2 of the line; slicing the text by that span yields the bytes
of b followed by the newline, not the content ab of line 1, whereas the span
covering line 1 exactly would start at offset 0. -/
theorem line_to_span_first_line_eval :
    line_to_span "ab\ncd".toList 1 = some ⟨1, 2⟩ ∧
    sliceBytes "ab\ncd".toList 1 2 = strBytes "b\n".toList ∧
    (rustLines "ab\ncd".toList).get? 0 = some "ab".toList ∧
    specLineSpan "ab\ncd".toList 1 = some ⟨0, 2⟩ ∧
    sliceBytes "ab\ncd".toList 0 2 = strBytes "ab".toList ∧
    strBytes "b\n".toList ≠ strBytes "ab".toList := by
  refine ⟨?_, ?_, ?_, ?_, ?_, ?_⟩ <;> decide

/-- C8: evaluation at the scenario of the claim: for an unequal-lengths csv
failure reporting expected 5 and observed 3 at line 7 of a ten-line text, the
hint does state both counts, but the produced span has offset 37 and length 5
while the span covering line 7 exactly has offset 36 and length 5: the
diagnostic highlights the line shifted by one character, not line 7 exactly. -/
theorem csv_unequal_lengths_eval :
    CSVError.new (CsvErrorKind.UnequalLengths (some 7) 5 3) tenLineSource =
      some ⟨tenLineSource, ⟨37, 5⟩,
        "record has 3 fields, but the previous record has 5 fields",
        CsvErrorKind.UnequalLengths (some 7) 5 3, ""⟩ ∧
    specLineSpan tenLineSource 7 = some ⟨36, 5⟩ ∧
    (⟨37, 5⟩ : SourceSpan) ≠ (⟨36, 5⟩ : SourceSpan) ∧
    sliceBytes tenLineSource 37 5 = strBytes "ine7\n".toList ∧
    sliceBytes tenLineSource 36 5 = strBytes "line7".toList := by
  refine ⟨?_, ?_, ?_, ?_, ?_⟩ <;> decide
